import Mathlib

/-!
Verification development for the marina staging-to-warehouse synchronizer.

The Python sources are shallowly embedded as executable Lean definitions:

* `generate_where_clause.py` : `get_column_info`, `get_nvl_default_value`,
  `generate_where_clause` (the NULL-safe change-predicate generator);
* `download_csv_from_s3.py` : the typed record normalizers (`parse_datetime`,
  `parse_date`, `parse_float`, `parse_int`, `parse_boolean`,
  `safe_bool_as_int`), the per-entity CSV row parsers (`parse_piers_data`),
  and the per-file processing loop of `read_s3_zip_and_insert_to_db`;
* `molo_db_functions.py` : `truncate_staging_tables`, `insert_slips`,
  `insert_marina_locations`, `insert_piers`, `insert_slip_types`;
* `download_stellar_from_s3.py` : `parse_int`, `parse_float` and the
  per-table loop of `process_stellar_data_from_s3`.

Python exceptions are modelled with `Except`; a Python function that
catches an exception and returns normally is a total Lean function (or one
returning `Except.ok`), while a function that lets the exception escape
returns `Except.error`.  Logged warnings are surfaced as explicit return
components where a claim depends on them.
-/

/-! ### Python string primitives

Small executable models of the Python builtins used by the sources
(`str.strip`, `str.upper`, slicing, `str.startswith`, `int()`, `float()`).
They are list-of-char based so that every proof can be discharged by
kernel evaluation.
-/

/-- Python whitespace for `str.strip()` (ASCII subset). -/
def isPySpace (c : Char) : Bool :=
  c == ' ' || c == '\t' || c == '\n' || c == '\r' || c == '\x0b' || c == '\x0c'

/-- `s.strip()` : drop leading and trailing whitespace. -/
def pyStrip (s : String) : String :=
  (((s.toList.dropWhile isPySpace).reverse.dropWhile isPySpace).reverse).asString

/-- `s.upper()` (ASCII). -/
def pyUpper (s : String) : String :=
  (s.toList.map Char.toUpper).asString

/-- `s[:n]` : keep at most the first `n` characters. -/
def pyTake (s : String) (n : Nat) : String :=
  (s.toList.take n).asString

/-- `s.startswith(pre)`. -/
def pyStartsWith (s pre : String) : Bool :=
  pre.toList.isPrefixOf s.toList

/-- Value of a decimal digit character. -/
def digitVal (c : Char) : Nat := c.toNat - 48

/-- Digits to a natural number, most significant first. -/
def digitsToNat (ds : List Char) : Nat :=
  ds.foldl (fun a c => a * 10 + digitVal c) 0

/-- Model of the Python builtin `int(str)` on decimal literals: optional
sign, one or more digits, surrounding whitespace tolerated.  Returns
`none` where `int()` raises `ValueError`. -/
def pyInt? (s : String) : Option Int :=
  let t := (pyStrip s).toList
  let (sign, ds) : Int × List Char :=
    match t with
    | '+' :: r => (1, r)
    | '-' :: r => (-1, r)
    | r => (1, r)
  if !ds.isEmpty && ds.all Char.isDigit then
    some (sign * (digitsToNat ds : Int))
  else
    none

/-- Model of the Python builtin `float(str)` on decimal literals:
optional sign, digits with an optional decimal point (at least one digit
overall) and an optional integer exponent.  Returns `none` where
`float()` raises `ValueError`.  (The special spellings `inf`/`nan` are
outside the fragment exercised by this repository's CSV data.) -/
def pyFloat? (s : String) : Option Rat :=
  let t := (pyStrip s).toList
  let (sign, r0) : Rat × List Char :=
    match t with
    | '+' :: r => (1, r)
    | '-' :: r => (-1, r)
    | r => (1, r)
  let intPart := r0.takeWhile Char.isDigit
  let r1 := r0.dropWhile Char.isDigit
  let (fracPart, r2) : List Char × List Char :=
    match r1 with
    | '.' :: r => (r.takeWhile Char.isDigit, r.dropWhile Char.isDigit)
    | r => ([], r)
  if intPart.isEmpty && fracPart.isEmpty then none
  else
    let mant : Rat := (digitsToNat (intPart ++ fracPart) : Nat)
    let scaled : Int → Option Rat := fun e =>
      let k : Int := e - (fracPart.length : Int)
      if 0 ≤ k then some (sign * mant * (10 : Rat) ^ k.toNat)
      else some (sign * mant / (10 : Rat) ^ (-k).toNat)
    match r2 with
    | [] => scaled 0
    | 'e' :: r3 =>
      match (match r3 with
             | '+' :: r4 => some (1, r4)
             | '-' :: r4 => some (-1, r4)
             | r4 => some (1, r4)) with
      | some (es, ds) =>
        if !ds.isEmpty && ds.all Char.isDigit && (r3 ≠ []) then
          scaled ((es : Int) * (digitsToNat ds : Int))
        else none
      | none => none
    | 'E' :: r3 =>
      match (match r3 with
             | '+' :: r4 => some (1, r4)
             | '-' :: r4 => some (-1, r4)
             | r4 => some (1, r4)) with
      | some (es, ds) =>
        if !ds.isEmpty && ds.all Char.isDigit && (r3 ≠ []) then
          scaled ((es : Int) * (digitsToNat ds : Int))
        else none
      | none => none
    | _ => none

/-- Truthiness of a Python string-or-None value (`not value_str`):
`None` and the empty string are falsy. -/
def pyTruthyStr : Option String → Bool
  | none => false
  | some s => !(s == "")

/-! ### `generate_where_clause.py`

`get_column_info` (lines 53-72) queries `USER_TAB_COLUMNS` for the rows
of one table, excluding the audit columns `DW_LAST_INSERTED` and
`DW_LAST_UPDATED`, ordered by `COLUMN_ID`.  We embed the data dictionary
as a list of `ColumnMeta` already in `COLUMN_ID` order, so the SQL query
is the straightforward filter below.
-/

/-- One row of `USER_TAB_COLUMNS` as selected by `get_column_info`. -/
structure ColumnMeta where
  table : String
  name : String
  dataType : String
  dataLength : Option Int
  dataPrecision : Option Int
  dataScale : Option Int
deriving Repr, DecidableEq

/-- The two audit columns excluded from the change predicate. -/
def auditColumns : List String := ["DW_LAST_INSERTED", "DW_LAST_UPDATED"]

/-- `get_column_info` (generate_where_clause.py:53-72): live columns of
`tbl`, audit columns excluded, in catalog (`COLUMN_ID`) order. -/
def get_column_info (catalog : List ColumnMeta) (tbl : String) : List ColumnMeta :=
  catalog.filter (fun r => r.table == tbl && !(auditColumns.contains r.name))

/-- Truthiness of `data_scale` (`if data_scale and data_scale > 0`):
`None` and `0` are falsy. -/
def scaleTruthy : Option Int → Bool
  | none => false
  | some v => !(v == 0)

/-- `get_nvl_default_value` (generate_where_clause.py:74-113): the NVL
substitute literal chosen from the Oracle data type. -/
def get_nvl_default_value (dataType : String) (dataPrecision dataScale : Option Int) :
    String :=
  if ["VARCHAR2", "CHAR", "NVARCHAR2", "NCHAR", "CLOB", "NCLOB"].contains dataType then
    "'~NULL~'"
  else if dataType == "NUMBER" then
    if scaleTruthy dataScale && decide (0 < dataScale.getD 0) then "-999.999" else "-999"
  else if ["INTEGER", "INT", "SMALLINT"].contains dataType then
    "-999"
  else if ["FLOAT", "DOUBLE PRECISION", "REAL", "BINARY_FLOAT", "BINARY_DOUBLE"].contains dataType then
    "-999.999"
  else if dataType == "DATE" then
    "TO_DATE('1900-01-01','YYYY-MM-DD')"
  else if pyStartsWith dataType "TIMESTAMP" then
    "TO_TIMESTAMP('1900-01-01 00:00:00','YYYY-MM-DD HH24:MI:SS')"
  else if ["BLOB", "RAW", "LONG RAW"].contains dataType then
    "HEXTORAW('00')"
  else
    "'~NULL~'"

/-- Whether `get_nvl_default_value` reaches the fallback branch that
prints the `Warning: Unknown data type` message (line 112). -/
def get_nvl_default_warns (dataType : String) : Bool :=
  !(["VARCHAR2", "CHAR", "NVARCHAR2", "NCHAR", "CLOB", "NCLOB"].contains dataType) &&
  !(dataType == "NUMBER") &&
  !(["INTEGER", "INT", "SMALLINT"].contains dataType) &&
  !(["FLOAT", "DOUBLE PRECISION", "REAL", "BINARY_FLOAT", "BINARY_DOUBLE"].contains dataType) &&
  !(dataType == "DATE") &&
  !(pyStartsWith dataType "TIMESTAMP") &&
  !(["BLOB", "RAW", "LONG RAW"].contains dataType)

/-- One `NVL(tgt.col, d) <> NVL(src.col, d)` comparison; the same
substitute `substitute` is used on both sides. -/
structure NvlCondition where
  column : String
  substitute : String
deriving Repr, DecidableEq

/-- The condition built for one column row (generate_where_clause.py:121-124). -/
def mkCondition (r : ColumnMeta) : NvlCondition :=
  { column := r.name,
    substitute := get_nvl_default_value r.dataType r.dataPrecision r.dataScale }

/-- The `conditions` list accumulated by `generate_where_clause`
(lines 119-124): one condition per entry of `columns_info`, in order. -/
def whereConditions (columnsInfo : List ColumnMeta) : List NvlCondition :=
  columnsInfo.map mkCondition

/-- The SQL text of one condition (line 123). -/
def conditionString (c : NvlCondition) : String :=
  "NVL(tgt." ++ c.column ++ ", " ++ c.substitute ++ ") <> NVL(src." ++
    c.column ++ ", " ++ c.substitute ++ ")"

/-- `generate_where_clause` (lines 115-131): the conditions joined with
`OR` inside a `WHERE ( ... )` wrapper. -/
def generate_where_clause (columnsInfo : List ColumnMeta) (indent : String) : String :=
  let conds := (whereConditions columnsInfo).map
    (fun c => indent ++ "    " ++ conditionString c)
  indent ++ "WHERE (\n" ++ String.intercalate " OR\n" conds ++ "\n" ++ indent ++ ")"

/-- SQL `NVL(v, d)` over a nullable value. -/
def nvl (v : Option String) (d : String) : String := v.getD d

/-- Semantics of one generated condition over a target row and a source
row (each a partial valuation of column names). -/
def evalCondition (c : NvlCondition) (tgt src : String → Option String) : Bool :=
  !(nvl (tgt c.column) c.substitute == nvl (src c.column) c.substitute)

/-- Semantics of the generated `WHERE` clause: the disjunction of the
per-column conditions. -/
def evalWhereClause (conds : List NvlCondition) (tgt src : String → Option String) : Bool :=
  conds.any (fun c => evalCondition c tgt src)

/-! ### `datetime.strptime`

The normalizers try `datetime.strptime(s, fmt)` over a list of format
strings.  We embed CPython's `_strptime` for the directives the sources
use (`%Y %m %d %H %M %S` and literal separators): each directive matches
the alternatives of its `TimeRE` regex in order, with backtracking, the
whole input must be consumed, and the resulting field values must form a
valid `datetime` (otherwise `ValueError`, i.e. `none`).
-/

/-- A compiled format-string token.  A literal space in a Python format
matches a run of whitespace (`_strptime` rewrites it to `\s+`). -/
inductive FmtTok where
  | year | month | day | hour | minute | second
  | ws
  | lit (c : Char)
deriving Repr, DecidableEq

/-- `%Y` : exactly four digits. -/
def yearAlt : List Char → Option (Nat × List Char)
  | a :: b :: c :: d :: rest =>
    if a.isDigit && b.isDigit && c.isDigit && d.isDigit then
      some (digitsToNat [a, b, c, d], rest)
    else none
  | _ => none

/-- `%m` : the alternatives of `1[0-2]|0[1-9]|[1-9]`, in regex order. -/
def monthAlts : List Char → List (Nat × List Char)
  | c1 :: c2 :: rest =>
    (if c1 == '1' && ('0' ≤ c2 && c2 ≤ '2') then [(10 + digitVal c2, rest)] else []) ++
    (if c1 == '0' && ('1' ≤ c2 && c2 ≤ '9') then [(digitVal c2, rest)] else []) ++
    (if '1' ≤ c1 && c1 ≤ '9' then [(digitVal c1, c2 :: rest)] else [])
  | [c1] => if '1' ≤ c1 && c1 ≤ '9' then [(digitVal c1, [])] else []
  | [] => []

/-- `%d` : the alternatives of `3[01]|[12]\d|0[1-9]|[1-9]`, in regex order. -/
def dayAlts : List Char → List (Nat × List Char)
  | c1 :: c2 :: rest =>
    (if c1 == '3' && (c2 == '0' || c2 == '1') then [(30 + digitVal c2, rest)] else []) ++
    (if (c1 == '1' || c1 == '2') && c2.isDigit then
      [(10 * digitVal c1 + digitVal c2, rest)] else []) ++
    (if c1 == '0' && ('1' ≤ c2 && c2 ≤ '9') then [(digitVal c2, rest)] else []) ++
    (if '1' ≤ c1 && c1 ≤ '9' then [(digitVal c1, c2 :: rest)] else [])
  | [c1] => if '1' ≤ c1 && c1 ≤ '9' then [(digitVal c1, [])] else []
  | [] => []

/-- `%H` : the alternatives of `2[0-3]|[0-1]\d|\d`, in regex order. -/
def hourAlts : List Char → List (Nat × List Char)
  | c1 :: c2 :: rest =>
    (if c1 == '2' && ('0' ≤ c2 && c2 ≤ '3') then [(20 + digitVal c2, rest)] else []) ++
    (if (c1 == '0' || c1 == '1') && c2.isDigit then
      [(10 * digitVal c1 + digitVal c2, rest)] else []) ++
    (if c1.isDigit then [(digitVal c1, c2 :: rest)] else [])
  | [c1] => if c1.isDigit then [(digitVal c1, [])] else []
  | [] => []

/-- `%M` : the alternatives of `[0-5]\d|\d`, in regex order. -/
def minuteAlts : List Char → List (Nat × List Char)
  | c1 :: c2 :: rest =>
    (if ('0' ≤ c1 && c1 ≤ '5') && c2.isDigit then
      [(10 * digitVal c1 + digitVal c2, rest)] else []) ++
    (if c1.isDigit then [(digitVal c1, c2 :: rest)] else [])
  | [c1] => if c1.isDigit then [(digitVal c1, [])] else []
  | [] => []

/-- `%S` : the alternatives of `6[0-1]|[0-5]\d|\d`, in regex order. -/
def secondAlts : List Char → List (Nat × List Char)
  | c1 :: c2 :: rest =>
    (if c1 == '6' && (c2 == '0' || c2 == '1') then [(60 + digitVal c2, rest)] else []) ++
    (if ('0' ≤ c1 && c1 ≤ '5') && c2.isDigit then
      [(10 * digitVal c1 + digitVal c2, rest)] else []) ++
    (if c1.isDigit then [(digitVal c1, c2 :: rest)] else [])
  | [c1] => if c1.isDigit then [(digitVal c1, [])] else []
  | [] => []

/-- The field values recovered by `_strptime`, with its defaults. -/
structure TimeParts where
  y : Nat := 1900
  m : Nat := 1
  d : Nat := 1
  hh : Nat := 0
  mi : Nat := 0
  ss : Nat := 0
deriving Repr, DecidableEq

/-- Match a token list against the character list, with the regex's
alternative-order backtracking; the whole input must be consumed
(`unconverted data remains` otherwise). -/
def runFmt : List FmtTok → List Char → TimeParts → Option TimeParts
  | [], [], tp => some tp
  | [], _ :: _, _ => none
  | .lit c :: toks, x :: xs, tp => if x == c then runFmt toks xs tp else none
  | .lit _ :: _, [], _ => none
  | .ws :: toks, x :: xs, tp =>
    if isPySpace x then runFmt toks (xs.dropWhile isPySpace) tp else none
  | .ws :: _, [], _ => none
  | .year :: toks, cs, tp =>
    match yearAlt cs with
    | some vr => runFmt toks vr.2 { tp with y := vr.1 }
    | none => none
  | .month :: toks, cs, tp =>
    (monthAlts cs).findSome? fun vr => runFmt toks vr.2 { tp with m := vr.1 }
  | .day :: toks, cs, tp =>
    (dayAlts cs).findSome? fun vr => runFmt toks vr.2 { tp with d := vr.1 }
  | .hour :: toks, cs, tp =>
    (hourAlts cs).findSome? fun vr => runFmt toks vr.2 { tp with hh := vr.1 }
  | .minute :: toks, cs, tp =>
    (minuteAlts cs).findSome? fun vr => runFmt toks vr.2 { tp with mi := vr.1 }
  | .second :: toks, cs, tp =>
    (secondAlts cs).findSome? fun vr => runFmt toks vr.2 { tp with ss := vr.1 }

/-- A Python `datetime` value (date plus time of day). -/
structure PyDateTime where
  year : Nat
  month : Nat
  day : Nat
  hour : Nat
  minute : Nat
  second : Nat
deriving Repr, DecidableEq

/-- Gregorian leap year. -/
def isLeapYear (y : Nat) : Bool :=
  y % 4 == 0 && (y % 100 != 0 || y % 400 == 0)

/-- Length of a month. -/
def daysInMonth (y m : Nat) : Nat :=
  if m == 2 then (if isLeapYear y then 29 else 28)
  else if m == 4 || m == 6 || m == 9 || m == 11 then 30
  else 31

/-- The `datetime(...)` constructor's range checks (`ValueError` as
`none`). -/
def mkDatetime (tp : TimeParts) : Option PyDateTime :=
  if 1 ≤ tp.y ∧ tp.y ≤ 9999 ∧ 1 ≤ tp.m ∧ tp.m ≤ 12 ∧ 1 ≤ tp.d ∧
      tp.d ≤ daysInMonth tp.y tp.m ∧ tp.hh ≤ 23 ∧ tp.mi ≤ 59 ∧ tp.ss ≤ 59 then
    some ⟨tp.y, tp.m, tp.d, tp.hh, tp.mi, tp.ss⟩
  else none

/-- `datetime.strptime(s, fmt)`, returning `none` where it raises
`ValueError`. -/
def strptime (s : String) (fmt : List FmtTok) : Option PyDateTime :=
  (runFmt fmt s.toList {}).bind mkDatetime

/-- Try format strings in order; first successful parse wins.  This is
the `for fmt in formats: try ... except ValueError: continue` loop shared
by `parse_datetime` and `parse_date`. -/
def tryFormats (s : String) : List (List FmtTok) → Option PyDateTime
  | [] => none
  | f :: fs =>
    match strptime s f with
    | some dt => some dt
    | none => tryFormats s fs

/-! ### `download_csv_from_s3.py` : typed record normalizers -/

namespace Molo

/-- `'%m/%d/%Y %H:%M:%S'` -/
def fmtUsDateTime : List FmtTok :=
  [.month, .lit '/', .day, .lit '/', .year, .ws, .hour, .lit ':', .minute, .lit ':', .second]

/-- `'%Y-%m-%d %H:%M:%S'` -/
def fmtIsoDateTime : List FmtTok :=
  [.year, .lit '-', .month, .lit '-', .day, .ws, .hour, .lit ':', .minute, .lit ':', .second]

/-- `'%m/%d/%Y %H:%M'` -/
def fmtUsDateHm : List FmtTok :=
  [.month, .lit '/', .day, .lit '/', .year, .ws, .hour, .lit ':', .minute]

/-- `'%Y-%m-%d %H:%M'` -/
def fmtIsoDateHm : List FmtTok :=
  [.year, .lit '-', .month, .lit '-', .day, .ws, .hour, .lit ':', .minute]

/-- `datetime_formats` (download_csv_from_s3.py:2511-2516), in declared
order. -/
def datetime_formats : List (List FmtTok) :=
  [fmtUsDateTime, fmtIsoDateTime, fmtUsDateHm, fmtIsoDateHm]

/-- `'%Y-%m-%d'` -/
def fmtIsoDate : List FmtTok := [.year, .lit '-', .month, .lit '-', .day]

/-- `'%m/%d/%Y'` -/
def fmtUsDate : List FmtTok := [.month, .lit '/', .day, .lit '/', .year]

/-- `'%d/%m/%Y'` -/
def fmtDayFirstDate : List FmtTok := [.day, .lit '/', .month, .lit '/', .year]

/-- `'%Y/%m/%d'` -/
def fmtYmdSlash : List FmtTok := [.year, .lit '/', .month, .lit '/', .day]

/-- `'%m-%d-%Y'` -/
def fmtUsDashDate : List FmtTok := [.month, .lit '-', .day, .lit '-', .year]

/-- `date_formats` (download_csv_from_s3.py:2541), in declared order:
ISO first, then US month-first, then day-first, then `%Y/%m/%d`, then
`%m-%d-%Y`. -/
def date_formats : List (List FmtTok) :=
  [fmtIsoDate, fmtUsDate, fmtDayFirstDate, fmtYmdSlash, fmtUsDashDate]

/-- `parse_datetime` (download_csv_from_s3.py:2498-2525): falsy input →
`None`; otherwise first format that parses wins; exhaustion → logged
warning and `None`, never an exception. -/
def parse_datetime (v : Option String) : Option PyDateTime :=
  if !(pyTruthyStr v) then none
  else tryFormats (v.getD "") datetime_formats

/-- `parse_date` (download_csv_from_s3.py:2528-2550): falsy input →
`None`; otherwise first format of `date_formats` that parses wins;
exhaustion → logged warning and `None`, never an exception. -/
def parse_date (v : Option String) : Option PyDateTime :=
  if !(pyTruthyStr v) then none
  else tryFormats (v.getD "") date_formats

/-- `parse_float` (download_csv_from_s3.py:2553-2570): falsy input →
`0.0`; unparsable input → logged warning and `0.0`. -/
def parse_float (v : Option String) : Rat :=
  if !(pyTruthyStr v) then 0
  else
    match pyFloat? (v.getD "") with
    | some r => r
    | none => 0

/-- `parse_int` (download_csv_from_s3.py:2573-2590): falsy or blank
input → `None`; unparsable input → logged warning and `None`. -/
def parse_int (v : Option String) : Option Int :=
  if !(pyTruthyStr v) || pyStrip (v.getD "") == "" then none
  else
    match pyInt? (v.getD "") with
    | some n => some n
    | none => none

/-- `parse_boolean` (download_csv_from_s3.py:2593-2614): falsy or blank
input → `None`; case-insensitive membership in `('TRUE','T','1','YES','Y')`
→ `1`, in `('FALSE','F','0','NO','N')` → `0`; anything else → logged
warning and `None`. -/
def parse_boolean (v : Option String) : Option Int :=
  if !(pyTruthyStr v) || pyStrip (v.getD "") == "" then none
  else
    let u := pyUpper (pyStrip (v.getD ""))
    if ["TRUE", "T", "1", "YES", "Y"].contains u then some 1
    else if ["FALSE", "F", "0", "NO", "N"].contains u then some 0
    else none

/-- The sentinel spellings treated as absent by the `safe_*` helpers
(`['', 'NULL', 'N/A', 'NONE']`, compared after `strip()` only — the
comparison is case-sensitive). -/
def pySentinels : List String := ["", "NULL", "N/A", "NONE"]

/-- `safe_bool_as_int` (download_csv_from_s3.py:710-720): `None` or a
sentinel spelling → the default; membership in `['TRUE','1','YES','Y']`
(no `'T'`) → `1`; in `['FALSE','0','NO','N']` (no `'F'`) → `0`; anything
else → the default. -/
def safe_bool_as_int (v : Option String) (dflt : Int) : Int :=
  match v with
  | none => dflt
  | some s =>
    if pySentinels.contains (pyStrip s) then dflt
    else
      let u := pyUpper (pyStrip s)
      if ["TRUE", "1", "YES", "Y"].contains u then 1
      else if ["FALSE", "0", "NO", "N"].contains u then 0
      else dflt

end Molo

namespace Stellar

/-- `parse_int` (download_stellar_from_s3.py:34-41): empty or `None` →
`None`; unparsable → `None`. -/
def parse_int (v : Option String) : Option Int :=
  match v with
  | none => none
  | some s => if s == "" then none else pyInt? s

/-- `parse_float` (download_stellar_from_s3.py:44-51): empty or `None` →
`None`; unparsable → `None`. -/
def parse_float (v : Option String) : Option Rat :=
  match v with
  | none => none
  | some s => if s == "" then none else pyFloat? s

end Stellar

/-! ### `download_csv_from_s3.py` : per-entity CSV row parsers

`csv.DictReader` hands each data row to the parser as a mapping from
header name to a string value; a data row shorter than the header maps
the missing columns to Python `None` (the reader's `restval`).  We embed
a raw Piers row as the three values the parser reads, each
`Option String` with `none` standing for that `None`.
-/

/-- A Python exception escaping a field coercion. -/
inductive PyError where
  | attributeError
deriving Repr, DecidableEq

/-- A raw `Piers.csv` row as seen by `parse_piers_data`. -/
structure PierRaw where
  id : Option String
  name : Option String
  marinaLocationId : Option String
deriving Repr, DecidableEq

/-- `value.strip()` where `value` may be Python `None`
(`row.get(key, '')` returns the stored `None` when the column is present
but unset): `None.strip()` raises `AttributeError`. -/
def stripOpt : Option String → Except PyError String
  | none => Except.error PyError.attributeError
  | some s => Except.ok (pyStrip s)

namespace Molo

/-- The tuple built for one Piers row (download_csv_from_s3.py:513-517),
evaluated left to right; the first failing field coercion aborts the
row with its exception. -/
def parsePierRow (r : PierRaw) : Except PyError (String × String × String) := do
  let i ← stripOpt r.id
  let n ← stripOpt r.name
  let m ← stripOpt r.marinaLocationId
  Except.ok (i, pyTake n 255, m)

/-- `parse_piers_data` (download_csv_from_s3.py:498-523): each row is
built inside `try`; a row whose coercion raises is logged and skipped
(`continue`), and the loop moves on.  The function itself never raises. -/
def parse_piers_data : List PierRaw → List (String × String × String)
  | [] => []
  | r :: rs =>
    match parsePierRow r with
    | Except.ok t => t :: parse_piers_data rs
    | Except.error _ => parse_piers_data rs

end Molo

/-! ### Database model

The Oracle connection is embedded as an association list from staging
table name to its committed rows.  `executemany` followed by `commit`
either raises (the modelled failure) or appends the batch; `rollback`
leaves the committed state untouched, so a caught exception returns the
pre-call database.
-/

/-- Committed staging state: rows per staging table. -/
abbrev Db (α : Type) := List (String × List α)

/-- Append a committed batch to a table. -/
def dbAppend {α : Type} : Db α → String → List α → Db α
  | [], t, rs => [(t, rs)]
  | (u, xs) :: rest, t, rs =>
    if u == t then (u, xs ++ rs) :: rest else (u, xs) :: dbAppend rest t rs

/-- `TRUNCATE TABLE t`. -/
def dbTruncate {α : Type} (db : Db α) (t : String) : Db α :=
  db.map (fun p => if p.1 == t then (p.1, []) else p)

/-- A database exception (`oracledb.Error` and friends). -/
inductive DbError where
  | oracleError
deriving Repr, DecidableEq

/-- `cursor.executemany(insert_sql, data_rows)` followed by
`connection.commit()`: the modelled outcome is either the committed
batch or the exception.  `raises` says whether this call fails. -/
def executemany_commit {α : Type} (raises : Bool) (tbl : String) (rows : List α)
    (db : Db α) : Except DbError (Db α) :=
  if raises then Except.error DbError.oracleError else Except.ok (dbAppend db tbl rows)

namespace Molo

/-- `insert_slips` (molo_db_functions.py:270-294): empty input returns
at once; an insert failure is logged, the transaction rolled back, and —
unlike every sibling insert function — the exception is NOT re-raised,
so the result is always `Except.ok`. -/
def insert_slips {α : Type} (data_rows : List α) (raises : Bool) (db : Db α) :
    Except DbError (Db α) :=
  if data_rows.isEmpty then Except.ok db
  else
    match executemany_commit raises "STG_MOLO_SLIPS" data_rows db with
    | Except.ok db2 => Except.ok db2
    | Except.error _ => Except.ok db

/-- `insert_marina_locations` (molo_db_functions.py:186-214): empty
input returns at once; an insert failure is logged, rolled back, and
re-raised. -/
def insert_marina_locations {α : Type} (data_rows : List α) (raises : Bool) (db : Db α) :
    Except DbError (Db α) :=
  if data_rows.isEmpty then Except.ok db
  else
    match executemany_commit raises "STG_MOLO_MARINA_LOCATIONS" data_rows db with
    | Except.ok db2 => Except.ok db2
    | Except.error e => Except.error e

/-- `insert_piers` (molo_db_functions.py:216-241): same shape as
`insert_marina_locations` (rollback and re-raise). -/
def insert_piers {α : Type} (data_rows : List α) (raises : Bool) (db : Db α) :
    Except DbError (Db α) :=
  if data_rows.isEmpty then Except.ok db
  else
    match executemany_commit raises "STG_MOLO_PIERS" data_rows db with
    | Except.ok db2 => Except.ok db2
    | Except.error e => Except.error e

/-- `insert_slip_types` (molo_db_functions.py:243-268): same shape as
`insert_marina_locations` (rollback and re-raise). -/
def insert_slip_types {α : Type} (data_rows : List α) (raises : Bool) (db : Db α) :
    Except DbError (Db α) :=
  if data_rows.isEmpty then Except.ok db
  else
    match executemany_commit raises "STG_MOLO_SLIP_TYPES" data_rows db with
    | Except.ok db2 => Except.ok db2
    | Except.error e => Except.error e

/-- The staging tables truncated before each MOLO run
(molo_db_functions.py:126-145). -/
def staging_tables : List String :=
  ["STG_MOLO_MARINA_LOCATIONS", "STG_MOLO_PIERS", "STG_MOLO_SLIP_TYPES",
   "STG_MOLO_SLIPS", "STG_MOLO_RESERVATIONS", "STG_MOLO_COMPANIES",
   "STG_MOLO_CONTACTS", "STG_MOLO_BOATS", "STG_MOLO_ACCOUNTS",
   "STG_MOLO_INVOICES", "STG_MOLO_INVOICE_ITEMS", "STG_MOLO_TRANSACTIONS",
   "STG_MOLO_ITEM_MASTERS", "STG_MOLO_SEASONAL_PRICES", "STG_MOLO_TRANSIENT_PRICES",
   "STG_MOLO_RECORD_STATUS", "STG_MOLO_BOAT_TYPES", "STG_MOLO_POWER_NEEDS",
   "STG_MOLO_RESERVATION_STATUS", "STG_MOLO_RESERVATION_TYPES", "STG_MOLO_CONTACT_TYPES",
   "STG_MOLO_INVOICE_STATUS", "STG_MOLO_INVOICE_TYPES", "STG_MOLO_TRANSACTION_TYPES",
   "STG_MOLO_TRANSACTION_METHODS", "STG_MOLO_INSURANCE", "STG_MOLO_EQUIPMENT",
   "STG_MOLO_ACCOUNT_STATUS", "STG_MOLO_CONTACT_AUTO_CHARGE", "STG_MOLO_STATEMENTS_PREFERENCE",
   "STG_MOLO_INVOICE_ITEM_TYPES", "STG_MOLO_PAYMENT_METHODS", "STG_MOLO_SEASONAL_CHARGE_METHODS",
   "STG_MOLO_SEASONAL_INVOICING_METHODS", "STG_MOLO_TRANSIENT_CHARGE_METHODS",
   "STG_MOLO_TRANSIENT_INVOICING_METHODS", "STG_MOLO_RECURRING_INVOICE_OPTIONS",
   "STG_MOLO_DUE_DATE_SETTINGS", "STG_MOLO_ITEM_CHARGE_METHODS", "STG_MOLO_INSURANCE_STATUS",
   "STG_MOLO_EQUIPMENT_TYPES", "STG_MOLO_EQUIPMENT_FUEL_TYPES", "STG_MOLO_VESSEL_ENGINE_CLASS",
   "STG_MOLO_CITIES", "STG_MOLO_COUNTRIES", "STG_MOLO_CURRENCIES",
   "STG_MOLO_PHONE_TYPES", "STG_MOLO_ADDRESS_TYPES", "STG_MOLO_INSTALLMENTS_PAYMENT_METHODS",
   "STG_MOLO_PAYMENTS_PROVIDER"]

/-- `truncate_staging_tables` (molo_db_functions.py:118-156): each
`TRUNCATE` runs inside its own `try`; a failure is logged as a warning
(`Could not truncate ...`) and the loop continues with the next table.
The method always returns normally.  `truncRaises t` says whether the
`TRUNCATE` of table `t` fails; the second component collects the tables
for which a warning was logged. -/
def truncate_staging_tables {α : Type} (truncRaises : String → Bool) (db : Db α) :
    Db α × List String :=
  staging_tables.foldl
    (fun acc t =>
      if truncRaises t then (acc.1, acc.2 ++ [t]) else (dbTruncate acc.1 t, acc.2))
    (db, [])

end Molo

/-! ### `read_s3_zip_and_insert_to_db` : the MOLO per-file loop

Lines 2788-3117.  After `truncate_staging_tables`, each extracted CSV is
processed inside `try: parse; insert; processed += 1` with
`except: error += 1; continue`; a file with no parser branch bumps
`skipped`.  The row parsers are total (each catches its own per-row
exceptions), so the only exception reaching the `except` is the one a
re-raising insert function propagates.  The dispatch below carries the
branches the claims exercise (`MarinaLocations`, `Piers`, `SlipTypes`,
`Slips`); the remaining ~45 branches are copy-paste clones of the
`Piers` branch (a re-raising insert into their own staging table) and
their behavior is that of the `Piers` case.
-/

namespace Molo

/-- One extracted CSV file: its base name, its (already parsed) rows,
and whether its staging insert would raise. -/
structure MoloJob (α : Type) where
  name : String
  rows : List α
  insertRaises : Bool
deriving Repr, DecidableEq

/-- The loop counters of `read_s3_zip_and_insert_to_db` (lines
2800-2803). -/
structure MoloCounters where
  processed : Nat
  skipped : Nat
  errors : Nat
deriving Repr, DecidableEq

/-- One iteration of the per-file loop: dispatch on the file name, run
the matching insert, convert a propagated exception into
`error_count += 1` and move on. -/
def moloStep {α : Type} (st : Db α × MoloCounters) (j : MoloJob α) :
    Db α × MoloCounters :=
  let db := st.1
  let c := st.2
  let finish : Except DbError (Db α) → Db α × MoloCounters := fun r =>
    match r with
    | Except.ok db2 => (db2, { c with processed := c.processed + 1 })
    | Except.error _ => (db, { c with errors := c.errors + 1 })
  if j.name == "MarinaLocations" then finish (insert_marina_locations j.rows j.insertRaises db)
  else if j.name == "Piers" then finish (insert_piers j.rows j.insertRaises db)
  else if j.name == "SlipTypes" then finish (insert_slip_types j.rows j.insertRaises db)
  else if j.name == "Slips" then finish (insert_slips j.rows j.insertRaises db)
  else (db, { c with skipped := c.skipped + 1 })

/-- `read_s3_zip_and_insert_to_db`, steps 1-2 (lines 2788-3117):
truncate every staging table (failures logged, never fatal), then run
the per-file loop.  Returns the committed database, the counters and
the truncation warnings. -/
def read_s3_zip_and_insert_to_db {α : Type} (truncRaises : String → Bool)
    (files : List (MoloJob α)) (db : Db α) : Db α × MoloCounters × List String :=
  let t := truncate_staging_tables truncRaises db
  let r := files.foldl moloStep (t.1, ⟨0, 0, 0⟩)
  (r.1, r.2, t.2)

end Molo

/-! ### `process_stellar_data_from_s3` : the Stellar per-table loop

Lines 1278-1299 of `download_stellar_from_s3.py`.
`download_and_parse_stellar_table` catches every exception itself and
returns `None`, embedded as `parsed = none`.  A truthy (non-empty) row
list triggers `TRUNCATE` + insert, both of which may raise; the
per-table `except` turns any exception into a `failed_tables` entry and
the loop continues.  An empty or missing row list goes to the `else`
branch: a `No data found` warning and a `failed_tables` entry.
-/

namespace Stellar

/-- One table of `tables_to_process`: its name, the result of
`download_and_parse_stellar_table` (`none` = an exception was caught
there), and whether its `TRUNCATE` / insert would raise. -/
structure StellarJob (α : Type) where
  name : String
  parsed : Option (List α)
  truncRaises : Bool
  insertRaises : Bool
deriving Repr, DecidableEq

/-- The loop state of `process_stellar_data_from_s3` (lines 1274-1276)
plus the database. -/
structure StellarState (α : Type) where
  db : Db α
  total_records : Nat
  successful_tables : Nat
  failed_tables : List String
deriving Repr, DecidableEq

/-- The staging table for a Stellar source table
(`f"STG_STELLAR_{table_name.upper()}"`). -/
def stagingTable (name : String) : String :=
  "STG_STELLAR_" ++ pyUpper name

/-- The body run for a non-empty table inside the per-table `try`
(lines 1283-1288): `TRUNCATE` + commit, then the insert function (which
rolls back and re-raises on failure). -/
def stellarBody {α : Type} (j : StellarJob α) (rows : List α) (db : Db α) :
    Except DbError (Db α) := do
  let db1 ←
    if j.truncRaises then Except.error DbError.oracleError
    else Except.ok (dbTruncate db (stagingTable j.name))
  if j.insertRaises then Except.error DbError.oracleError
  else Except.ok (dbAppend db1 (stagingTable j.name) rows)

/-- One iteration of the Stellar per-table loop (lines 1278-1299). -/
def stellarStep {α : Type} (st : StellarState α) (j : StellarJob α) : StellarState α :=
  match j.parsed with
  | some rows =>
    if !rows.isEmpty then
      match stellarBody j rows st.db with
      | Except.ok db2 =>
        { st with
          db := db2,
          total_records := st.total_records + rows.length,
          successful_tables := st.successful_tables + 1 }
      | Except.error _ => { st with failed_tables := st.failed_tables ++ [j.name] }
    else { st with failed_tables := st.failed_tables ++ [j.name] }
  | none => { st with failed_tables := st.failed_tables ++ [j.name] }

/-- The per-table loop of `process_stellar_data_from_s3`: every table of
the declared sequence is visited; no exception escapes an iteration. -/
def process_stellar_data_from_s3 {α : Type} (jobs : List (StellarJob α)) (db : Db α) :
    StellarState α :=
  jobs.foldl stellarStep { db := db, total_records := 0, successful_tables := 0,
                           failed_tables := [] }

/-- A table that reaches `Successfully processed`: rows were parsed and
non-empty, and neither `TRUNCATE` nor the insert raised. -/
def goodJob {α : Type} (j : StellarJob α) : Bool :=
  !(j.parsed.getD []).isEmpty && !j.truncRaises && !j.insertRaises

/-- The records contributed by a table (`len(data_rows)` for a parsed
table). -/
def jobRows {α : Type} (j : StellarJob α) : Nat :=
  (j.parsed.getD []).length

end Stellar

/-- The live-column predicate of `get_column_info`'s SQL: the row belongs
to the table and is not one of the two audit columns. -/
def liveColumn (tbl : String) (r : ColumnMeta) : Bool :=
  r.table == tbl && !(auditColumns.contains r.name)

namespace Molo

/-- File names with a dispatch branch in the embedded loop. -/
def fileKnown (n : String) : Bool :=
  ["MarinaLocations", "Piers", "SlipTypes", "Slips"].contains n

/-- A file whose iteration ends in the `except` branch
(`error_count += 1`): a known non-Slips file with a non-empty batch
whose insert raises.  A Slips file never lands here because
`insert_slips` swallows its own exception. -/
def fileFails {α : Type} (j : MoloJob α) : Bool :=
  fileKnown j.name && !(j.name == "Slips") && j.insertRaises && !j.rows.isEmpty

/-- A file counted as processed (`processed_count += 1`). -/
def fileProcessed {α : Type} (j : MoloJob α) : Bool :=
  fileKnown j.name && !(fileFails j)

end Molo

/-! ## Claims -/

/-- `pyStartsWith t "TIMESTAMP"` forces the first character of `t` to be
`'T'`. -/
lemma ts_head (t : String) (h : pyStartsWith t "TIMESTAMP" = true) :
    t.toList.head? = some 'T' := by
  unfold pyStartsWith at h
  obtain ⟨rest, hr⟩ := List.isPrefixOf_iff_prefix.mp h
  rw [← hr]
  rfl

/-- Strings whose first characters differ are distinct. -/
lemma ne_of_head (t u : String) (ht : t.toList.head? = some 'T')
    (hu : u.toList.head? ≠ some 'T') : t ≠ u := by
  rintro rfl
  exact hu ht

/-- C1: the nullish substitute is determined by the declared column type:
character types get `'~NULL~'`; `NUMBER` with positive scale gets
`-999.999` and `NUMBER` without scale gets `-999`; integer types get
`-999`; float types get `-999.999`; `DATE` gets the 1900-01-01 sentinel;
every `TIMESTAMP` variant gets the 1900-01-01 00:00:00 sentinel;
BLOB/RAW types get the one-byte `HEXTORAW('00')` sentinel; and an
unrecognized type degrades to `'~NULL~'` with the warning recorded
(`get_nvl_default_warns`), never an exception. -/
theorem nvl_default_value_by_type :
    ∀ (t : String) (p s : Option Int) (sc : Int),
      (t ∈ ["VARCHAR2", "CHAR", "NVARCHAR2", "NCHAR", "CLOB", "NCLOB"] →
        get_nvl_default_value t p s = "'~NULL~'" ∧ get_nvl_default_warns t = false)
    ∧ (0 < sc → get_nvl_default_value "NUMBER" p (some sc) = "-999.999")
    ∧ get_nvl_default_value "NUMBER" p none = "-999"
    ∧ get_nvl_default_warns "NUMBER" = false
    ∧ (t ∈ ["INTEGER", "INT", "SMALLINT"] →
        get_nvl_default_value t p s = "-999" ∧ get_nvl_default_warns t = false)
    ∧ (t ∈ ["FLOAT", "DOUBLE PRECISION", "REAL", "BINARY_FLOAT", "BINARY_DOUBLE"] →
        get_nvl_default_value t p s = "-999.999" ∧ get_nvl_default_warns t = false)
    ∧ get_nvl_default_value "DATE" p s = "TO_DATE('1900-01-01','YYYY-MM-DD')"
    ∧ get_nvl_default_warns "DATE" = false
    ∧ (pyStartsWith t "TIMESTAMP" = true →
        get_nvl_default_value t p s =
          "TO_TIMESTAMP('1900-01-01 00:00:00','YYYY-MM-DD HH24:MI:SS')"
        ∧ get_nvl_default_warns t = false)
    ∧ (t ∈ ["BLOB", "RAW", "LONG RAW"] →
        get_nvl_default_value t p s = "HEXTORAW('00')" ∧ get_nvl_default_warns t = false)
    ∧ (get_nvl_default_warns t = true → get_nvl_default_value t p s = "'~NULL~'") := by
  intro t p s sc
  refine ⟨?_, ?_, rfl, rfl, ?_, ?_, rfl, rfl, ?_, ?_, ?_⟩
  · intro h
    simp only [List.mem_cons, List.not_mem_nil, or_false] at h
    rcases h with rfl | rfl | rfl | rfl | rfl | rfl <;> exact ⟨rfl, rfl⟩
  · intro h
    simp [get_nvl_default_value, scaleTruthy, h, h.ne']
  · intro h
    simp only [List.mem_cons, List.not_mem_nil, or_false] at h
    rcases h with rfl | rfl | rfl <;> exact ⟨rfl, rfl⟩
  · intro h
    simp only [List.mem_cons, List.not_mem_nil, or_false] at h
    rcases h with rfl | rfl | rfl | rfl | rfl <;> exact ⟨rfl, rfl⟩
  · intro h
    have hh := ts_head t h
    have e1 : t ≠ "VARCHAR2" := ne_of_head _ _ hh (by decide)
    have e2 : t ≠ "CHAR" := ne_of_head _ _ hh (by decide)
    have e3 : t ≠ "NVARCHAR2" := ne_of_head _ _ hh (by decide)
    have e4 : t ≠ "NCHAR" := ne_of_head _ _ hh (by decide)
    have e5 : t ≠ "CLOB" := ne_of_head _ _ hh (by decide)
    have e6 : t ≠ "NCLOB" := ne_of_head _ _ hh (by decide)
    have e7 : t ≠ "NUMBER" := ne_of_head _ _ hh (by decide)
    have e8 : t ≠ "INTEGER" := ne_of_head _ _ hh (by decide)
    have e9 : t ≠ "INT" := ne_of_head _ _ hh (by decide)
    have e10 : t ≠ "SMALLINT" := ne_of_head _ _ hh (by decide)
    have e11 : t ≠ "FLOAT" := ne_of_head _ _ hh (by decide)
    have e12 : t ≠ "DOUBLE PRECISION" := ne_of_head _ _ hh (by decide)
    have e13 : t ≠ "REAL" := ne_of_head _ _ hh (by decide)
    have e14 : t ≠ "BINARY_FLOAT" := ne_of_head _ _ hh (by decide)
    have e15 : t ≠ "BINARY_DOUBLE" := ne_of_head _ _ hh (by decide)
    have e16 : t ≠ "DATE" := ne_of_head _ _ hh (by decide)
    refine ⟨?_, ?_⟩ <;>
      simp [get_nvl_default_value, get_nvl_default_warns, List.contains_eq_any_beq,
        e1, e2, e3, e4, e5, e6, e7, e8, e9, e10, e11, e12, e13, e14, e15, e16, h]
  · intro h
    simp only [List.mem_cons, List.not_mem_nil, or_false] at h
    rcases h with rfl | rfl | rfl <;> exact ⟨rfl, rfl⟩
  · intro hw
    simp only [get_nvl_default_warns, Bool.and_eq_true, Bool.not_eq_true'] at hw
    obtain ⟨⟨⟨⟨⟨⟨w1, w2⟩, w3⟩, w4⟩, w5⟩, w6⟩, w7⟩ := hw
    simp only [get_nvl_default_value, w1, w2, w3, w4, w5, w6, w7, Bool.false_eq_true,
      if_false]

/-- Witness for C1: every hypothesis of `nvl_default_value_by_type`
discharged at a concrete Oracle type. -/
theorem nvl_default_value_by_type_witness :
    get_nvl_default_value "VARCHAR2" none none = "'~NULL~'" ∧
    get_nvl_default_value "NUMBER" (some 10) (some 2) = "-999.999" ∧
    get_nvl_default_value "NUMBER" (some 10) none = "-999" ∧
    get_nvl_default_value "SMALLINT" none none = "-999" ∧
    get_nvl_default_value "BINARY_DOUBLE" none none = "-999.999" ∧
    get_nvl_default_value "DATE" none none = "TO_DATE('1900-01-01','YYYY-MM-DD')" ∧
    get_nvl_default_value "TIMESTAMP(6) WITH TIME ZONE" none none =
      "TO_TIMESTAMP('1900-01-01 00:00:00','YYYY-MM-DD HH24:MI:SS')" ∧
    get_nvl_default_value "LONG RAW" none none = "HEXTORAW('00')" ∧
    get_nvl_default_value "SDO_GEOMETRY" none none = "'~NULL~'" ∧
    get_nvl_default_warns "SDO_GEOMETRY" = true :=
  ⟨((nvl_default_value_by_type "VARCHAR2" none none 1).1 (by decide)).1,
   (nvl_default_value_by_type "X" (some 10) none 2).2.1 (by decide),
   (nvl_default_value_by_type "X" (some 10) none 1).2.2.1,
   ((nvl_default_value_by_type "SMALLINT" none none 1).2.2.2.2.1 (by decide)).1,
   ((nvl_default_value_by_type "BINARY_DOUBLE" none none 1).2.2.2.2.2.1 (by decide)).1,
   (nvl_default_value_by_type "X" none none 1).2.2.2.2.2.2.1,
   ((nvl_default_value_by_type "TIMESTAMP(6) WITH TIME ZONE" none none
      1).2.2.2.2.2.2.2.2.1 (by decide)).1,
   ((nvl_default_value_by_type "LONG RAW" none none 1).2.2.2.2.2.2.2.2.2.1 (by decide)).1,
   (nvl_default_value_by_type "SDO_GEOMETRY" none none 1).2.2.2.2.2.2.2.2.2.2 (by decide),
   by decide⟩


/-- C2: the generated predicate has exactly one NVL
inequality-after-substitution condition per live column of the
destination table (audit columns excluded, in schema order), each using
the same substitute on both sides, and the disjunction is true iff at
least one column differs after substitution. -/
theorem where_clause_disjunction_per_column :
    ∀ (catalog : List ColumnMeta) (tbl : String) (tgt src : String → Option String),
      (whereConditions (get_column_info catalog tbl)).map (fun c => c.column)
        = (catalog.filter (liveColumn tbl)).map (fun r => r.name)
    ∧ (evalWhereClause (whereConditions (get_column_info catalog tbl)) tgt src = true
        ↔ ∃ r ∈ catalog, liveColumn tbl r = true ∧
            nvl (tgt r.name) (get_nvl_default_value r.dataType r.dataPrecision r.dataScale)
              ≠ nvl (src r.name) (get_nvl_default_value r.dataType r.dataPrecision r.dataScale)) := by
  intro catalog tbl tgt src
  constructor
  · show ((get_column_info catalog tbl).map mkCondition).map (fun c => c.column)
      = (catalog.filter (liveColumn tbl)).map (fun r => r.name)
    rw [List.map_map]
    rfl
  · simp only [evalWhereClause, whereConditions, get_column_info,
      List.any_eq_true, List.mem_map, List.mem_filter]
    constructor
    · rintro ⟨c, ⟨r, ⟨hr, hl⟩, rfl⟩, hc⟩
      refine ⟨r, hr, ?_, ?_⟩
      · simpa [liveColumn] using hl
      · simpa [evalCondition, mkCondition] using hc
    · rintro ⟨r, hr, hl, hne⟩
      refine ⟨mkCondition r, ⟨r, ⟨hr, ?_⟩, rfl⟩, ?_⟩
      · simpa [liveColumn] using hl
      · simpa [evalCondition, mkCondition] using hne

/-- C4: the normalizers used for nullable numeric and temporal fields
map absent input (Python `None`, the empty string, or blanks) to the
explicit absent marker `none`, never to a zero default; the normalizer
used for non-nullable numeric fields (`parse_float` of the MOLO loader,
whose documented default is `0.0`) maps absent input to `0`, and by its
return type never to an absent marker. -/
theorem absent_numeric_temporal_normalization :
    Stellar.parse_float none = none ∧ Stellar.parse_float (some "") = none ∧
    Stellar.parse_int none = none ∧ Stellar.parse_int (some "") = none ∧
    Molo.parse_int none = none ∧ Molo.parse_int (some "") = none ∧
    Molo.parse_int (some "   ") = none ∧
    Molo.parse_datetime none = none ∧ Molo.parse_datetime (some "") = none ∧
    Molo.parse_date none = none ∧ Molo.parse_date (some "") = none ∧
    Molo.parse_float none = 0 ∧ Molo.parse_float (some "") = 0 := by
  repeat' constructor

/-- C6 part: `strptime` instances for the first-match theorem. -/
theorem date_formats_first_match :
    (∀ (s : String) (f : List FmtTok) (fs : List (List FmtTok)) (dt : PyDateTime),
        strptime s f = some dt → tryFormats s (f :: fs) = some dt)
  ∧ (∀ (s : String) (f : List FmtTok) (fs : List (List FmtTok)),
        strptime s f = none → tryFormats s (f :: fs) = tryFormats s fs)
  ∧ strptime "03/04/2024" Molo.fmtIsoDate = none
  ∧ Molo.parse_date (some "03/04/2024") = some ⟨2024, 3, 4, 0, 0, 0⟩
  ∧ (∀ s : String,
        (∀ f ∈ Molo.date_formats, strptime s f = none) →
        Molo.parse_date (some s) = none) := by
  refine ⟨?_, ?_, by decide, by decide, ?_⟩
  · intro s f fs dt h
    simp [tryFormats, h]
  · intro s f fs h
    simp [tryFormats, h]
  · intro s h
    simp only [Molo.date_formats, List.mem_cons, List.not_mem_nil, or_false,
      forall_eq_or_imp, forall_eq] at h
    obtain ⟨h1, h2, h3, h4, h5⟩ := h
    simp [Molo.parse_date, Molo.date_formats, tryFormats, h1, h2, h3, h4, h5]

/-- Witness for C6 at concrete inputs. -/
theorem date_formats_first_match_witness :
    tryFormats "2024-01-02" Molo.date_formats = some ⟨2024, 1, 2, 0, 0, 0⟩ ∧
    tryFormats "03/04/2024" Molo.date_formats
      = tryFormats "03/04/2024"
          [Molo.fmtUsDate, Molo.fmtDayFirstDate, Molo.fmtYmdSlash, Molo.fmtUsDashDate] ∧
    Molo.parse_date (some "banana") = none :=
  ⟨date_formats_first_match.1 "2024-01-02" Molo.fmtIsoDate
      [Molo.fmtUsDate, Molo.fmtDayFirstDate, Molo.fmtYmdSlash, Molo.fmtUsDashDate]
      ⟨2024, 1, 2, 0, 0, 0⟩ (by decide),
   date_formats_first_match.2.1 "03/04/2024" Molo.fmtIsoDate
      [Molo.fmtUsDate, Molo.fmtDayFirstDate, Molo.fmtYmdSlash, Molo.fmtUsDashDate]
      (by decide),
   date_formats_first_match.2.2.2.2 "banana" (by decide)⟩

/-- C5 counterexample: a Piers row whose `Name` value is Python `None`
(a data row shorter than the header) raises `AttributeError` inside the
row `try`, and `parse_piers_data` discards that whole row instead of
keeping it with defaults: three raw rows normalize to two tuples. -/
theorem piers_row_discarded_counterexample :
    Molo.parse_piers_data
        [⟨some "1", some "Pier A", some "10"⟩,
         ⟨some "2", none, some "10"⟩,
         ⟨some "3", some "Pier C", some "30"⟩]
      = [("1", "Pier A", "10"), ("3", "Pier C", "30")] ∧
    (Molo.parse_piers_data
        [⟨some "1", some "Pier A", some "10"⟩,
         ⟨some "2", none, some "10"⟩,
         ⟨some "3", some "Pier C", some "30"⟩]).length ≠ 3 := by
  constructor
  · rfl
  · decide

/-- C5 amended: `parse_piers_data` never raises (it is total), but a row
whose field coercion raises is skipped — the output is exactly the
successfully coerced rows, in order; all remaining rows still proceed. -/
theorem parse_piers_skips_failing_rows :
    ∀ rows : List PierRaw,
      Molo.parse_piers_data rows
        = rows.filterMap (fun r => (Molo.parsePierRow r).toOption) := by
  intro rows
  induction rows with
  | nil => rfl
  | cons r rs ih =>
    cases h : Molo.parsePierRow r <;>
      simp [Molo.parse_piers_data, h, ih, Except.toOption]

/-- C7 amended: `parse_boolean` maps the case-insensitive true set
(with `T`) to `1`, the false set (with `F`) to `0`, and everything else
— unrecognized, blank or absent — to `None` (with a logged warning),
not to a false-state default; `safe_bool_as_int` uses the sets without
`T`/`F` and maps everything else, including absent and the sentinel
spellings, to its default. -/
theorem boolean_normalization_characterization :
    ∀ (s : String) (d : Int),
      (pyUpper (pyStrip s) ∈ ["TRUE", "T", "1", "YES", "Y"] →
        Molo.parse_boolean (some s) = some 1)
    ∧ (pyUpper (pyStrip s) ∈ ["FALSE", "F", "0", "NO", "N"] →
        Molo.parse_boolean (some s) = some 0)
    ∧ (pyStrip s ≠ "" →
        pyUpper (pyStrip s) ∉ ["TRUE", "T", "1", "YES", "Y"] →
        pyUpper (pyStrip s) ∉ ["FALSE", "F", "0", "NO", "N"] →
        Molo.parse_boolean (some s) = none)
    ∧ (pyStrip s = "" → Molo.parse_boolean (some s) = none)
    ∧ Molo.parse_boolean none = none
    ∧ (pyStrip s ∈ Molo.pySentinels → Molo.safe_bool_as_int (some s) d = d)
    ∧ (pyStrip s ∉ Molo.pySentinels →
        pyUpper (pyStrip s) ∈ ["TRUE", "1", "YES", "Y"] →
        Molo.safe_bool_as_int (some s) d = 1)
    ∧ (pyStrip s ∉ Molo.pySentinels →
        pyUpper (pyStrip s) ∈ ["FALSE", "0", "NO", "N"] →
        Molo.safe_bool_as_int (some s) d = 0)
    ∧ (pyStrip s ∉ Molo.pySentinels →
        pyUpper (pyStrip s) ∉ ["TRUE", "1", "YES", "Y"] →
        pyUpper (pyStrip s) ∉ ["FALSE", "0", "NO", "N"] →
        Molo.safe_bool_as_int (some s) d = d)
    ∧ Molo.safe_bool_as_int none d = d := by
  intro s d
  have hstrip : s = "" → pyStrip s = "" := by rintro rfl; rfl
  refine ⟨?_, ?_, ?_, ?_, rfl, ?_, ?_, ?_, ?_, rfl⟩
  · intro h
    have hne : pyStrip s ≠ "" := by
      intro he
      rw [he] at h
      exact absurd h (by decide)
    have hs : s ≠ "" := fun he => hne (hstrip he)
    simp only [List.mem_cons, List.not_mem_nil, or_false] at h
    rcases h with h | h | h | h | h <;>
      simp [Molo.parse_boolean, pyTruthyStr, hs, hne, h]
  · intro h
    have hne : pyStrip s ≠ "" := by
      intro he
      rw [he] at h
      exact absurd h (by decide)
    have hs : s ≠ "" := fun he => hne (hstrip he)
    simp only [List.mem_cons, List.not_mem_nil, or_false] at h
    rcases h with h | h | h | h | h <;>
      simp [Molo.parse_boolean, pyTruthyStr, hs, hne, h]
  · intro hne htr hfa
    have hs : s ≠ "" := fun he => hne (hstrip he)
    simp [Molo.parse_boolean, pyTruthyStr, hs, hne, htr, hfa]
  · intro he
    by_cases hs : s = ""
    · subst hs; rfl
    · simp [Molo.parse_boolean, pyTruthyStr, hs, he]
  · intro h
    simp [Molo.safe_bool_as_int, h]
  · intro h htr
    simp only [List.mem_cons, List.not_mem_nil, or_false] at htr
    rcases htr with ht | ht | ht | ht <;>
      simp [Molo.safe_bool_as_int, h, ht]
  · intro h hfa
    simp only [List.mem_cons, List.not_mem_nil, or_false] at hfa
    rcases hfa with ht | ht | ht | ht <;>
      simp [Molo.safe_bool_as_int, h, ht]
  · intro h htr hfa
    simp [Molo.safe_bool_as_int, h, htr, hfa]

/-- Witness for C7 at concrete inputs. -/
theorem boolean_normalization_characterization_witness :
    Molo.parse_boolean (some " yes ") = some 1 ∧
    Molo.parse_boolean (some "No") = some 0 ∧
    Molo.parse_boolean (some "MAYBE") = none ∧
    Molo.parse_boolean (some "  ") = none ∧
    Molo.safe_bool_as_int (some " NULL ") 7 = 7 ∧
    Molo.safe_bool_as_int (some "true") 7 = 1 ∧
    Molo.safe_bool_as_int (some "no") 7 = 0 ∧
    Molo.safe_bool_as_int (some "T") 7 = 7 :=
  ⟨(boolean_normalization_characterization " yes " 7).1 (by decide),
   (boolean_normalization_characterization "No" 7).2.1 (by decide),
   (boolean_normalization_characterization "MAYBE" 7).2.2.1 (by decide) (by decide)
     (by decide),
   (boolean_normalization_characterization "  " 7).2.2.2.1 (by decide),
   (boolean_normalization_characterization " NULL " 7).2.2.2.2.2.1 (by decide),
   (boolean_normalization_characterization "true" 7).2.2.2.2.2.2.1 (by decide) (by decide),
   (boolean_normalization_characterization "no" 7).2.2.2.2.2.2.2.1 (by decide) (by decide),
   (boolean_normalization_characterization "T" 7).2.2.2.2.2.2.2.2.1 (by decide) (by decide)
     (by decide)⟩

/-- Field-level effect of one Stellar loop iteration: a good job bumps
the success count and record total; every other job appends itself to
the failed list. -/
lemma stellarStep_fields {α : Type} (st : Stellar.StellarState α)
    (j : Stellar.StellarJob α) :
    ((Stellar.stellarStep st j).successful_tables
        = st.successful_tables + (if Stellar.goodJob j then 1 else 0))
  ∧ ((Stellar.stellarStep st j).failed_tables
        = st.failed_tables ++ (if Stellar.goodJob j then [] else [j.name]))
  ∧ ((Stellar.stellarStep st j).total_records
        = st.total_records + (if Stellar.goodJob j then Stellar.jobRows j else 0)) := by
  obtain ⟨name, parsed, tr, ir⟩ := j
  cases parsed with
  | none => simp [Stellar.stellarStep, Stellar.goodJob]
  | some rows =>
    cases hE : rows.isEmpty <;> cases tr <;> cases ir <;>
      simp [Stellar.stellarStep, Stellar.stellarBody, Stellar.goodJob, Stellar.jobRows, hE,
        Bind.bind, Except.bind]

/-- Fold characterization of the Stellar loop from any starting state. -/
lemma stellar_foldl_char {α : Type} (jobs : List (Stellar.StellarJob α))
    (st : Stellar.StellarState α) :
    ((jobs.foldl Stellar.stellarStep st).successful_tables
        = st.successful_tables + (jobs.filter Stellar.goodJob).length)
  ∧ ((jobs.foldl Stellar.stellarStep st).failed_tables
        = st.failed_tables
            ++ (jobs.filter (fun j => !Stellar.goodJob j)).map (fun j => j.name))
  ∧ ((jobs.foldl Stellar.stellarStep st).total_records
        = st.total_records
            + ((jobs.filter Stellar.goodJob).map Stellar.jobRows).sum) := by
  induction jobs generalizing st with
  | nil => simp
  | cons j js ih =>
    obtain ⟨h1, h2, h3⟩ := stellarStep_fields st j
    obtain ⟨i1, i2, i3⟩ := ih (Stellar.stellarStep st j)
    cases hg : Stellar.goodJob j <;>
      simp only [hg, if_true, if_false, Bool.not_true, Bool.not_false] at h1 h2 h3 <;>
      simp [List.filter_cons, hg, i1, i2, i3, h1, h2, h3, List.append_assoc] <;>
      omega

/-- Counter effect of one MOLO loop iteration, independent of the
database state. -/
lemma moloStep_counters {α : Type} (db : Db α) (c : Molo.MoloCounters)
    (j : Molo.MoloJob α) :
    (Molo.moloStep (db, c) j).2
      = { processed := c.processed + (if Molo.fileProcessed j then 1 else 0),
          skipped := c.skipped + (if Molo.fileKnown j.name then 0 else 1),
          errors := c.errors + (if Molo.fileFails j then 1 else 0) } := by
  obtain ⟨name, rows, ir⟩ := j
  by_cases h1 : name = "MarinaLocations"
  · subst h1
    cases hE : rows.isEmpty <;> cases ir <;>
      simp [Molo.moloStep, Molo.insert_marina_locations, executemany_commit,
        Molo.fileProcessed, Molo.fileFails, Molo.fileKnown, hE]
  by_cases h2 : name = "Piers"
  · subst h2
    cases hE : rows.isEmpty <;> cases ir <;>
      simp [Molo.moloStep, Molo.insert_piers, executemany_commit,
        Molo.fileProcessed, Molo.fileFails, Molo.fileKnown, hE]
  by_cases h3 : name = "SlipTypes"
  · subst h3
    cases hE : rows.isEmpty <;> cases ir <;>
      simp [Molo.moloStep, Molo.insert_slip_types, executemany_commit,
        Molo.fileProcessed, Molo.fileFails, Molo.fileKnown, hE]
  by_cases h4 : name = "Slips"
  · subst h4
    cases hE : rows.isEmpty <;> cases ir <;>
      simp [Molo.moloStep, Molo.insert_slips, executemany_commit,
        Molo.fileProcessed, Molo.fileFails, Molo.fileKnown, hE]
  · simp [Molo.moloStep, Molo.fileProcessed, Molo.fileFails, Molo.fileKnown,
      h1, h2, h3, h4]

/-- Fold characterization of the MOLO loop counters from any starting
counters and any database state. -/
lemma molo_foldl_counters {α : Type} (files : List (Molo.MoloJob α)) (db : Db α)
    (c : Molo.MoloCounters) :
    (files.foldl Molo.moloStep (db, c)).2
      = { processed := c.processed + (files.filter Molo.fileProcessed).length,
          skipped := c.skipped
            + (files.filter (fun j => !Molo.fileKnown j.name)).length,
          errors := c.errors + (files.filter Molo.fileFails).length } := by
  induction files generalizing db c with
  | nil => simp
  | cons j js ih =>
    have hstep := moloStep_counters db c j
    have hpair : Molo.moloStep (db, c) j
        = ((Molo.moloStep (db, c) j).1, (Molo.moloStep (db, c) j).2) := rfl
    rw [List.foldl_cons, hpair, hstep]
    rw [ih]
    cases hk : Molo.fileKnown j.name <;>
      cases hp : Molo.fileProcessed j <;>
      cases hf : Molo.fileFails j <;>
      simp [List.filter_cons, hk, hp, hf] <;>
      omega

/-- C3: in both run drivers every entity of the declared sequence is
visited exactly once and classified from its own behavior alone, so an
exception during parsing or bulk-insert of one entity is absorbed at
that entity's boundary, the driver itself never propagates it (both
drivers are total functions whose per-entity `except` branches are
explicit in their definitions), and every later entity still reaches
its own success outcome regardless of earlier failures. -/
theorem run_isolation_per_entity :
    (∀ (α : Type) (jobs : List (Stellar.StellarJob α)) (db : Db α),
      (Stellar.process_stellar_data_from_s3 jobs db).successful_tables
          = (jobs.filter Stellar.goodJob).length
      ∧ (Stellar.process_stellar_data_from_s3 jobs db).failed_tables
          = (jobs.filter (fun j => !Stellar.goodJob j)).map (fun j => j.name)
      ∧ (Stellar.process_stellar_data_from_s3 jobs db).total_records
          = ((jobs.filter Stellar.goodJob).map Stellar.jobRows).sum)
  ∧ (∀ (α : Type) (tr : String → Bool) (files : List (Molo.MoloJob α)) (db : Db α),
      (Molo.read_s3_zip_and_insert_to_db tr files db).2.1
        = { processed := (files.filter Molo.fileProcessed).length,
            skipped := (files.filter (fun j => !Molo.fileKnown j.name)).length,
            errors := (files.filter Molo.fileFails).length }) := by
  constructor
  · intro α jobs db
    obtain ⟨a, b, c⟩ := stellar_foldl_char jobs ⟨db, 0, 0, []⟩
    exact ⟨by simpa using a, by simpa using b, by simpa using c⟩
  · intro α tr files db
    show (files.foldl Molo.moloStep
        ((Molo.truncate_staging_tables tr db).1, ⟨0, 0, 0⟩)).2 = _
    rw [molo_foldl_counters]
    simp

/-- The warnings collected by `truncate_staging_tables` are exactly the
tables whose `TRUNCATE` failed, from any starting accumulator. -/
lemma truncate_warns_aux {α : Type} (tables : List String) (tr : String → Bool)
    (db : Db α) (ws : List String) :
    (tables.foldl
        (fun acc t =>
          if tr t then (acc.1, acc.2 ++ [t]) else (dbTruncate acc.1 t, acc.2))
        (db, ws)).2
      = ws ++ tables.filter tr := by
  induction tables generalizing db ws with
  | nil => simp
  | cons t ts ih =>
    cases h : tr t <;> simp [List.filter_cons, h, ih]

set_option maxRecDepth 8192 in
/-- C8 counterexample: the `TRUNCATE` of `STG_MOLO_SLIPS` fails (warning
recorded), yet the Slips entity is not marked failed — it is still
processed (`processed = 1`, `errors = 0`) and its rows are inserted on
top of the stale staging content, so later steps do run for it. -/
theorem truncate_failure_not_isolated :
    Molo.read_s3_zip_and_insert_to_db (fun t => t == "STG_MOLO_SLIPS")
        [⟨"Slips", [1], false⟩] [("STG_MOLO_SLIPS", [0])]
      = ([("STG_MOLO_SLIPS", [0, 1])], ⟨1, 0, 0⟩, ["STG_MOLO_SLIPS"]) := by
  decide

/-- C8 amended: a staging-clear failure is caught per table inside
`truncate_staging_tables` (which always returns normally, recording the
failed tables as warnings), and has no effect on the per-file outcome:
the loop counters are the same as in a run whose truncations all
succeed, and all steps still execute for every entity. -/
theorem truncate_failures_logged_and_ignored :
    ∀ (α : Type) (tr : String → Bool) (files : List (Molo.MoloJob α)) (db : Db α),
      (Molo.read_s3_zip_and_insert_to_db tr files db).2.2
        = Molo.staging_tables.filter tr
    ∧ (Molo.read_s3_zip_and_insert_to_db tr files db).2.1
        = (Molo.read_s3_zip_and_insert_to_db (fun _ => false) files db).2.1 := by
  intro α tr files db
  constructor
  · show (Molo.staging_tables.foldl _ (db, [])).2 = _
    rw [truncate_warns_aux]
    rfl
  · show (files.foldl Molo.moloStep
        ((Molo.truncate_staging_tables tr db).1, ⟨0, 0, 0⟩)).2
      = (files.foldl Molo.moloStep
        ((Molo.truncate_staging_tables (fun _ => false) db).1, ⟨0, 0, 0⟩)).2
    rw [molo_foldl_counters, molo_foldl_counters]

/-- C9 counterexample: a table whose download parses to zero rows is
appended to `failed_tables` — the run records it as a failure, not as a
distinct EMPTY outcome. -/
theorem empty_rows_marked_failed_counterexample :
    (Stellar.process_stellar_data_from_s3
        [⟨"waitlists", some ([] : List Nat), false, false⟩] []).failed_tables
      = ["waitlists"]
  ∧ (Stellar.process_stellar_data_from_s3
        [⟨"waitlists", some ([] : List Nat), false, false⟩] []).successful_tables
      = 0 := by
  decide

/-- C9 amended: a table whose parse yields zero usable rows skips the
truncate/insert steps (the database is untouched) but is recorded in
the same `failed_tables` list as genuine failures (after a
`No data found` warning); the driver has no separate EMPTY outcome. -/
theorem empty_rows_recorded_as_failed :
    ∀ (α : Type) (st : Stellar.StellarState α) (j : Stellar.StellarJob α),
      j.parsed = some ([] : List α) →
      Stellar.stellarStep st j
        = { st with failed_tables := st.failed_tables ++ [j.name] } := by
  intro α st j h
  simp [Stellar.stellarStep, h]

/-- Witness for C9 at a concrete empty table. -/
theorem empty_rows_recorded_as_failed_witness :
    Stellar.stellarStep
        (⟨[], 0, 0, []⟩ : Stellar.StellarState Nat)
        ⟨"waitlists", some [], false, false⟩
      = ⟨[], 0, 0, ["waitlists"]⟩ :=
  empty_rows_recorded_as_failed Nat ⟨[], 0, 0, []⟩ ⟨"waitlists", some [], false, false⟩ rfl

/-- C10: `insert_slips` never propagates an exception — it returns
normally with the transaction rolled back when the bulk insert raises —
while `insert_marina_locations` re-raises on the same failure; hence the
calling loop counts a Slips file as processed (never as an error) even
when its insert failed. -/
theorem insert_slips_swallows_errors :
    ∀ (α : Type) (rows : List α) (raises : Bool) (db : Db α) (c : Molo.MoloCounters),
      Molo.insert_slips rows raises db
        = Except.ok (if rows.isEmpty then db
            else if raises then db else dbAppend db "STG_MOLO_SLIPS" rows)
    ∧ (rows.isEmpty = false →
        Molo.insert_marina_locations rows true db = Except.error DbError.oracleError)
    ∧ (Molo.moloStep (db, c) ⟨"Slips", rows, raises⟩).2.processed = c.processed + 1
    ∧ (Molo.moloStep (db, c) ⟨"Slips", rows, raises⟩).2.errors = c.errors := by
  intro α rows raises db c
  refine ⟨?_, ?_, ?_, ?_⟩
  · cases hE : rows.isEmpty <;> cases raises <;>
      simp [Molo.insert_slips, executemany_commit, hE]
  · intro h
    simp [Molo.insert_marina_locations, executemany_commit, h]
  · cases hE : rows.isEmpty <;> cases raises <;>
      simp [Molo.moloStep, Molo.insert_slips, executemany_commit, hE]
  · cases hE : rows.isEmpty <;> cases raises <;>
      simp [Molo.moloStep, Molo.insert_slips, executemany_commit, hE]

/-- Witness for C10: a non-empty Slips batch whose insert raises. -/
theorem insert_slips_swallows_errors_witness :
    Molo.insert_slips [5] true ([] : Db Nat) = Except.ok [] ∧
    Molo.insert_marina_locations [5] true ([] : Db Nat)
      = Except.error DbError.oracleError ∧
    (Molo.moloStep (([] : Db Nat), ⟨0, 0, 0⟩) ⟨"Slips", [5], true⟩).2.processed = 1 ∧
    (Molo.moloStep (([] : Db Nat), ⟨0, 0, 0⟩) ⟨"Slips", [5], true⟩).2.errors = 0 :=
  ⟨(insert_slips_swallows_errors Nat [5] true [] ⟨0, 0, 0⟩).1,
   (insert_slips_swallows_errors Nat [5] true [] ⟨0, 0, 0⟩).2.1 rfl,
   (insert_slips_swallows_errors Nat [5] true [] ⟨0, 0, 0⟩).2.2.1,
   (insert_slips_swallows_errors Nat [5] true [] ⟨0, 0, 0⟩).2.2.2⟩

/-- C7 counterexample: `parse_boolean` maps an unrecognized non-empty
string and absent input to `None`, not to the claimed default
false-state `0`; and `safe_bool_as_int` maps `"T"` to its default `0`,
not to the claimed true-state `1`. -/
theorem parse_boolean_default_counterexample :
    Molo.parse_boolean (some "MAYBE") = none ∧
    Molo.parse_boolean none = none ∧
    Molo.parse_boolean (some "T") = some 1 ∧
    Molo.safe_bool_as_int (some "T") 0 = 0 := by
  refine ⟨by decide, rfl, by decide, by decide⟩
